import Mathlib

/-!
# Verification of the neckbeard rollout/repair control logic

This file gives a shallow embedding, in Lean 4, of the control logic of
`neckbeard/actions/up.py` and `neckbeard/actions/repair.py`:

* the rollout priority scheduler `_order_ec2_deployers_by_priority`
  (up.py, lines 261-290);
* the deployer-building phase of the `up` action and the unconditional
  `assert False` that follows it (up.py, lines 144-195);
* the provisioning loops and the seed-verification gate
  (up.py, lines 197-212 and 429-447);
* the `seamless_modification` context manager: its pre-mutation redundancy
  guard (lines 312-343) and its two restore loops, the single-node
  convergence loop (lines 348-399) and the generation-mode repair loop
  (lines 401-426);
* the `repair` action (repair.py).

External collaborators (`Deployment`, `Node`, the cloud APIs, `prompt`) are
modelled by the values the embedded code reads from them: boolean check
results are oracle functions indexed by how many times the corresponding
call has been made, and operator input is an explicit list of answers.
Python exceptions and `exit(1)` are modelled as explicit outcome values,
and Python `%`-string formatting is embedded for the `%s` specifier, the
only one this code uses.
-/

namespace Neckbeard

/-! ## Common modelling of Python pieces -/

/-- A Python value as it is consumed by `%`-formatting in this code:
`None`, a string, or an integer. -/
inductive PyVal
  | pyNone
  | pyStr (s : String)
  | pyInt (n : Nat)
deriving DecidableEq, Repr

/-- `str(v)`, as used when `%s` renders an argument. -/
def pyvalStr : PyVal → String
  | .pyNone => "None"
  | .pyStr s => s
  | .pyInt n => toString n

/-- One pass of Python `%`-formatting over the characters of the format
string, for format strings whose only conversion specifier is `%s` (true of
every format string in this module).  Mirrors CPython: each `%s` consumes
one argument; a `%s` without a remaining argument raises; arguments left
over when the string is exhausted raise
`TypeError: not all arguments converted during string formatting`. -/
def pyFormatAux : List Char → List PyVal → Except String (List Char)
  | [], [] => .ok []
  | [], _ :: _ => .error "not all arguments converted during string formatting"
  | '%' :: 's' :: rest, v :: vs =>
    match pyFormatAux rest vs with
    | .ok r => .ok ((pyvalStr v).data ++ r)
    | .error e => .error e
  | '%' :: 's' :: _, [] => .error "not enough arguments for format string"
  | c :: rest, vs =>
    match pyFormatAux rest vs with
    | .ok r => .ok (c :: r)
    | .error e => .error e

/-- Python `fmt % args` (with `args` the tuple of arguments). -/
def pyFormat (fmt : String) (args : List PyVal) : Except String String :=
  match pyFormatAux fmt.data args with
  | .ok r => .ok (String.mk r)
  | .error e => .error e

/-- The validation loop `while not user_opt in opts: user_opt = prompt(...)`
used by the escalation prompts: it consumes operator answers until one is in
`opts`, returning that answer and the remaining input, or `none` when the
operator input is exhausted. -/
def promptValid (opts : List String) : List String → Option (String × List String)
  | [] => none
  | a :: rest => if opts.contains a then some (a, rest) else promptValid opts rest

/-! ## Rollout priority scheduler (up.py, lines 261-290)

`_order_ec2_deployers_by_priority` reads `deployer.get_node()` once per
deployer and classifies it by the pair `(node.is_operational,
node.is_healthy)`; the node as read is embedded as a field of the deployer.
-/

/-- The two node attributes the scheduler reads. -/
structure EcNode where
  is_operational : Bool
  is_healthy : Bool
deriving DecidableEq, Repr

/-- An EC2 node deployer as the scheduler sees it: an identity and the node
returned by `get_node()`. -/
structure Ec2Deployer where
  node_name : String
  node : EcNode
deriving DecidableEq, Repr

/-- The four classification buckets built by the scheduler's `for` loop. -/
structure SchedulerBuckets where
  io_unhealthy : List Ec2Deployer
  io_healthy : List Ec2Deployer
  o_unhealthy : List Ec2Deployer
  o_healthy : List Ec2Deployer
deriving DecidableEq, Repr

/-- The classification loop of `_order_ec2_deployers_by_priority` (up.py,
lines 271-288): each deployer is appended, in input order, to exactly one of
the four bucket lists according to `(is_operational, is_healthy)`. -/
def classifyDeployers : List Ec2Deployer → SchedulerBuckets
  | [] => ⟨[], [], [], []⟩
  | d :: rest =>
    let b := classifyDeployers rest
    if d.node.is_operational then
      if d.node.is_healthy then { b with o_healthy := d :: b.o_healthy }
      else { b with o_unhealthy := d :: b.o_unhealthy }
    else
      if d.node.is_healthy then { b with io_healthy := d :: b.io_healthy }
      else { b with io_unhealthy := d :: b.io_unhealthy }

/-- `_order_ec2_deployers_by_priority` (up.py, lines 261-290).  Note the
return statement of the source, line 290, concatenates
`io_healthy + io_unhealthy + o_unhealthy + o_healthy`, with the
inoperative-healthy bucket first. -/
def _order_ec2_deployers_by_priority (ec2_deployers : List Ec2Deployer) : List Ec2Deployer :=
  let b := classifyDeployers ec2_deployers
  b.io_healthy ++ b.io_unhealthy ++ b.o_unhealthy ++ b.o_healthy

/-- The bucket a deployer is classified into. -/
inductive Bucket
  | ioUnhealthy
  | ioHealthy
  | oUnhealthy
  | oHealthy
deriving DecidableEq, Repr

/-- Classification of one deployer, matching the nested `if` of the
scheduler's loop. -/
def bucketOf (d : Ec2Deployer) : Bucket :=
  if d.node.is_operational then
    if d.node.is_healthy then .oHealthy else .oUnhealthy
  else
    if d.node.is_healthy then .ioHealthy else .ioUnhealthy

/-- A concrete deployer whose node is inoperative and unhealthy. -/
def depIoUnhealthy : Ec2Deployer := ⟨"node-io-unhealthy", ⟨false, false⟩⟩

/-- A concrete deployer whose node is inoperative and healthy. -/
def depIoHealthy : Ec2Deployer := ⟨"node-io-healthy", ⟨false, true⟩⟩

theorem classify_io_unhealthy (ds : List Ec2Deployer) :
    (classifyDeployers ds).io_unhealthy =
      ds.filter (fun d => bucketOf d == Bucket.ioUnhealthy) := by
  induction ds with
  | nil => rfl
  | cons d rest ih =>
    cases hop : d.node.is_operational <;> cases hh : d.node.is_healthy <;>
      simp [classifyDeployers, bucketOf, hop, hh, ih]

theorem classify_io_healthy (ds : List Ec2Deployer) :
    (classifyDeployers ds).io_healthy =
      ds.filter (fun d => bucketOf d == Bucket.ioHealthy) := by
  induction ds with
  | nil => rfl
  | cons d rest ih =>
    cases hop : d.node.is_operational <;> cases hh : d.node.is_healthy <;>
      simp [classifyDeployers, bucketOf, hop, hh, ih]

theorem classify_o_unhealthy (ds : List Ec2Deployer) :
    (classifyDeployers ds).o_unhealthy =
      ds.filter (fun d => bucketOf d == Bucket.oUnhealthy) := by
  induction ds with
  | nil => rfl
  | cons d rest ih =>
    cases hop : d.node.is_operational <;> cases hh : d.node.is_healthy <;>
      simp [classifyDeployers, bucketOf, hop, hh, ih]

theorem classify_o_healthy (ds : List Ec2Deployer) :
    (classifyDeployers ds).o_healthy =
      ds.filter (fun d => bucketOf d == Bucket.oHealthy) := by
  induction ds with
  | nil => rfl
  | cons d rest ih =>
    cases hop : d.node.is_operational <;> cases hh : d.node.is_healthy <;>
      simp [classifyDeployers, bucketOf, hop, hh, ih]

theorem order_ec2_perm (ds : List Ec2Deployer) :
    List.Perm (_order_ec2_deployers_by_priority ds) ds := by
  induction ds with
  | nil => exact List.Perm.refl _
  | cons d rest ihp =>
    simp only [_order_ec2_deployers_by_priority, List.append_assoc] at ihp ⊢
    simp only [classifyDeployers]
    cases hop : d.node.is_operational <;> cases hh : d.node.is_healthy <;>
        simp only [hop, hh, Bool.false_eq_true, if_false, if_true, List.cons_append,
          List.append_assoc]
    · refine List.Perm.trans ?_ (ihp.cons d)
      exact List.perm_middle
    · exact ihp.cons d
    · refine List.Perm.trans ?_ (ihp.cons d)
      refine List.Perm.trans (List.Perm.append_left _ List.perm_middle) ?_
      exact List.perm_middle
    · refine List.Perm.trans ?_ (ihp.cons d)
      refine List.Perm.trans
        (List.Perm.append_left _ (List.Perm.append_left _ List.perm_middle)) ?_
      refine List.Perm.trans (List.Perm.append_left _ List.perm_middle) ?_
      exact List.perm_middle

theorem filter_bucket_of_filter (b c : Bucket) (ds : List Ec2Deployer) :
    (ds.filter (fun d => bucketOf d == c)).filter (fun d => bucketOf d == b) =
      if b = c then ds.filter (fun d => bucketOf d == b) else [] := by
  by_cases hbc : b = c
  · subst hbc
    simp [List.filter_filter]
  · rw [if_neg hbc]
    refine List.filter_eq_nil_iff.mpr ?_
    intro a ha
    have hc : bucketOf a = c := by
      have h2 := (List.mem_filter.mp ha).2
      exact beq_iff_eq.mp h2
    simp [hc, Ne.symm hbc]

/-- C1: the claim states the Rollout Priority Scheduler returns the four
health buckets in the order inoperative-unhealthy, inoperative-healthy,
operational-unhealthy, operational-healthy — the order the function's own
docstring (up.py, lines 265-269) documents.  The return statement (line 290)
instead concatenates `io_healthy + io_unhealthy + o_unhealthy + o_healthy`:
on a batch holding an inoperative-unhealthy deployer and an
inoperative-healthy deployer, the inoperative-healthy one comes out first,
contradicting the documented order. -/
theorem scheduler_emits_io_healthy_first :
    _order_ec2_deployers_by_priority [depIoUnhealthy, depIoHealthy] =
      [depIoHealthy, depIoUnhealthy] := rfl

/-- C8: for every input batch, `_order_ec2_deployers_by_priority` returns a
permutation of its input (same multiset, none dropped, none duplicated),
and for each classification bucket the deployers of that bucket appear in
the output in exactly their input relative order (stability).  The
embedding is a pure function on deployer values: it reads
`(is_operational, is_healthy)` of each deployer's node once and mutates
nothing. -/
theorem scheduler_is_stable_permutation (ds : List Ec2Deployer) :
    List.Perm (_order_ec2_deployers_by_priority ds) ds ∧
    ∀ b : Bucket,
      (_order_ec2_deployers_by_priority ds).filter (fun d => bucketOf d == b) =
        ds.filter (fun d => bucketOf d == b) := by
  constructor
  · exact order_ec2_perm ds
  · intro b
    simp only [_order_ec2_deployers_by_priority, classify_io_unhealthy, classify_io_healthy,
      classify_o_unhealthy, classify_o_healthy, List.filter_append, filter_bucket_of_filter]
    cases b <;> simp

/-! ## Deployer building and the `assert False` in `up` (up.py, lines 144-195)

`up` is modelled from the point where it has gathered deployment state and
enters the "Building Node deployers" phase (line 144): the phases before it
(git/pagerduty hooks, state gathering) touch none of the objects the claims
are about.  A node configuration is modelled by the keys this code reads:
the optional `'seed'` entry (whose `'unique_id'` the code reads when
present) and the optional `'seed_node'` entry (whose `'verify'` the code
reads with a default).  Reading a missing dict key raises `KeyError`, which
the embedding returns through `Except`.
-/

/-- The deployer class chosen by the `aws_type` dispatch (up.py,
lines 172-175). -/
inductive DeployerClass
  | Ec2NodeDeployment
  | RdsNodeDeployment
deriving DecidableEq, Repr

/-- The arguments `up` passes to the deployer constructor that the claims
observe (up.py, lines 177-187). -/
structure BuiltDeployer where
  klass : DeployerClass
  is_active : Bool
  aws_type : String
  node_name : String
  seed_node_name : Option String
  seed_verification : Bool
deriving DecidableEq, Repr

/-- The `'seed_node'` sub-dict: `conf['seed_node'].get('verify', False)`. -/
structure SeedNodeConf where
  verify : Option Bool
deriving DecidableEq, Repr

/-- One node configuration as read by the build loop:
`seed_unique_id = conf['seed']['unique_id']` when the `'seed'` key is
present (`none` models the `'seed'` key being absent), and `seed_node`
models the `'seed_node'` key. -/
structure NodeConf where
  seed_unique_id : Option String
  seed_node : Option SeedNodeConf
deriving DecidableEq, Repr

/-- A raised `KeyError` from a missing dict key. -/
inductive BuildError
  | keyError (key : String)
deriving DecidableEq, Repr

/-- An environment configuration: the `'ec2'` and `'rds'` sections, each a
dict of node name to node configuration. -/
structure EnvConfig where
  ec2 : List (String × NodeConf)
  rds : List (String × NodeConf)
deriving DecidableEq, Repr

/-- The body of the build loop for one node (up.py, lines 161-187): resolve
the seed node (lines 162-170; note line 166 reads `conf['seed_node']`,
raising `KeyError` when a node has a `'seed'` key but no `'seed_node'`
key), choose the class from `aws_type` (lines 172-175), and construct the
deployer (lines 177-187). -/
def buildOneDeployer (seed_deployment is_active : Bool) (aws_type node_name : String)
    (conf : NodeConf) : Except BuildError BuiltDeployer := do
  let seedInfo : Option String × Bool ←
    if seed_deployment && conf.seed_unique_id.isSome then
      match conf.seed_node with
      | none => Except.error (BuildError.keyError "seed_node")
      | some sn => Except.ok (conf.seed_unique_id, sn.verify.getD false)
    else
      Except.ok (none, false)
  let klass :=
    if aws_type == "ec2" then DeployerClass.Ec2NodeDeployment
    else DeployerClass.RdsNodeDeployment
  Except.ok
    { klass := klass
      is_active := is_active
      aws_type := aws_type
      node_name := node_name
      seed_node_name := seedInfo.1
      seed_verification := seedInfo.2 }

/-- The inner `for node_name, conf in node_confs.items()` loop for one
`(aws_type, node_confs)` pair of `dep_confs`. -/
def buildBatch (seed_deployment is_active : Bool) (aws_type : String) :
    List (String × NodeConf) → Except BuildError (List BuiltDeployer)
  | [] => Except.ok []
  | (node_name, conf) :: rest => do
    let d ← buildOneDeployer seed_deployment is_active aws_type node_name conf
    let ds ← buildBatch seed_deployment is_active aws_type rest
    Except.ok (d :: ds)

/-- The full build phase (up.py, lines 144-192).  `dep_confs` (lines
149-158) pairs the label `'rds'` with `environment_config.get('ec2', {})`
and the label `'ec2'` with `environment_config.get('rds', {})`; the loop
then appends each deployer to `rds_deployers` or `ec2_deployers` according
to that label.  The result is `(rds_deployers, ec2_deployers)`. -/
def buildDeployers (seed_deployment is_active : Bool) (cfg : EnvConfig) :
    Except BuildError (List BuiltDeployer × List BuiltDeployer) := do
  let rds_deployers ← buildBatch seed_deployment is_active "rds" cfg.ec2
  let ec2_deployers ← buildBatch seed_deployment is_active "ec2" cfg.rds
  Except.ok (rds_deployers, ec2_deployers)

/-- Outcome of running `up` from the build phase. -/
inductive UpOutcome
  | assertionError
  | raised (e : BuildError)
  | completed
deriving DecidableEq, Repr

/-- The phases of `up` that stand after `assert False` (up.py,
lines 197-249): RDS provisioning (with its seed-verification gates), EC2
provisioning (likewise), RDS `run()` configuration, the scheduler call,
and the EC2 deploy loop with its node mutations. -/
inductive UpPhase
  | provisionRds
  | provisionEc2
  | runRds
  | schedulerCall
  | deployEc2
deriving DecidableEq, Repr

/-- Python `assert cond`: continue when the condition holds, raise
`AssertionError` otherwise. -/
def pyAssert (cond : Bool) (k : UpOutcome × List UpPhase) : UpOutcome × List UpPhase :=
  if cond then k else (UpOutcome.assertionError, [])

/-- `up` from the build phase on (up.py, lines 144-249): build the
deployers, then hit `assert False` (line 195).  The phase markers record
which of the post-assertion phases run; the continuation passed to the
assertion is the phase skeleton of lines 197-249. -/
def upFromBuildPhase (seed_deployment is_active : Bool) (cfg : EnvConfig) :
    UpOutcome × List UpPhase :=
  match buildDeployers seed_deployment is_active cfg with
  | Except.error e => (UpOutcome.raised e, [])
  | Except.ok _ =>
    pyAssert false
      (UpOutcome.completed,
        [UpPhase.provisionRds, UpPhase.provisionEc2, UpPhase.runRds,
          UpPhase.schedulerCall, UpPhase.deployEc2])

/-- A node configuration with no seed keys at all. -/
def plainConf : NodeConf := ⟨none, none⟩

/-- A node configuration carrying a `'seed'` key but no `'seed_node'` key. -/
def seedOnlyConf : NodeConf := ⟨some "seed-node-id", none⟩

/-- An environment whose `'ec2'` section holds the node `web` and whose
`'rds'` section holds the node `db`, neither with seed configuration. -/
def cfgWebDb : EnvConfig := ⟨[("web", plainConf)], [("db", plainConf)]⟩

/-- An environment (for a run with a seed deployment) whose `'ec2'` node
`web` declares a `'seed'` key but no `'seed_node'` key. -/
def cfgSeedKeyOnly : EnvConfig := ⟨[("web", seedOnlyConf)], []⟩

/-- C2 (counterexample): the claim says every invocation of `up` that
reaches the deployer-building phase raises an `AssertionError`.  With a
seed deployment configured and a node conf that has a `'seed'` key but no
`'seed_node'` key, the build loop itself raises `KeyError('seed_node')`
at line 166 — before ever reaching `assert False` — so the run does not
raise an `AssertionError`. -/
theorem up_build_key_error :
    upFromBuildPhase true true cfgSeedKeyOnly =
      (UpOutcome.raised (BuildError.keyError "seed_node"), []) ∧
    (upFromBuildPhase true true cfgSeedKeyOnly).1 ≠ UpOutcome.assertionError := by
  constructor
  · rfl
  · have h1 : (upFromBuildPhase true true cfgSeedKeyOnly).1 =
        UpOutcome.raised (BuildError.keyError "seed_node") := rfl
    rw [h1]
    decide

/-- C2 (amended): every invocation of `up` that reaches the
deployer-building phase terminates by a raised exception before any
provisioning step — the `AssertionError` of the unconditional
`assert False` (line 195) whenever the build loop completes, and the build
loop's own exception otherwise — so `up` never runs the provisioning
phases: it never invokes the seed-verification gate, never calls
`ensure_node_created` or `run` on any deployer, never calls the scheduler,
and never mutates any node. -/
theorem up_never_provisions (seed_deployment is_active : Bool) (cfg : EnvConfig) :
    (upFromBuildPhase seed_deployment is_active cfg).2 = [] ∧
    (upFromBuildPhase seed_deployment is_active cfg).1 ≠ UpOutcome.completed ∧
    (∀ r, buildDeployers seed_deployment is_active cfg = Except.ok r →
      (upFromBuildPhase seed_deployment is_active cfg).1 = UpOutcome.assertionError) := by
  refine ⟨?_, ?_, ?_⟩ <;>
    first
    | (cases hb : buildDeployers seed_deployment is_active cfg <;>
        simp [upFromBuildPhase, pyAssert, hb])

/-- Witness for the amended C2 theorem at a concrete configuration. -/
theorem up_never_provisions_witness :
    (upFromBuildPhase false true cfgWebDb).2 = [] ∧
    (upFromBuildPhase false true cfgWebDb).1 ≠ UpOutcome.completed ∧
    (∀ r, buildDeployers false true cfgWebDb = Except.ok r →
      (upFromBuildPhase false true cfgWebDb).1 = UpOutcome.assertionError) :=
  up_never_provisions false true cfgWebDb

/-- C3: the claim says the build phase constructs an `RdsNodeDeployment`
for every node of the `'rds'` section and an `Ec2NodeDeployment` for every
node of the `'ec2'` section.  Because `dep_confs` (up.py, lines 149-158)
pairs the `'rds'` label with the `'ec2'` section and vice versa, the code
does the opposite: on an environment with EC2 node `web` and RDS node
`db`, the `rds_deployers` batch holds an `RdsNodeDeployment` for `web`
(the EC2-section node) and the `ec2_deployers` batch holds an
`Ec2NodeDeployment` for `db` (the RDS-section node). -/
theorem build_swaps_rds_and_ec2_sections :
    buildDeployers false true cfgWebDb =
      Except.ok
        ([{ klass := DeployerClass.RdsNodeDeployment, is_active := true,
            aws_type := "rds", node_name := "web", seed_node_name := none,
            seed_verification := false }],
         [{ klass := DeployerClass.Ec2NodeDeployment, is_active := true,
            aws_type := "ec2", node_name := "db", seed_node_name := none,
            seed_verification := false }]) := rfl

/-! ## Seed verification gate and provisioning loops (up.py, lines 197-212, 429-447)

The provisioning loops of `up` (one for RDS deployers, one for EC2, both of
the same shape, lines 200-212) run over one batch: for each deployer, when
`deployer.seed_verification` is set and `deployer.get_node()` is `None`,
the seed-verification gate `_prompt_for_seed_verification` runs first; then
`deployer.ensure_node_created()` is called.  A deployer is modelled by the
two values that code reads, and `exit(1)` inside the gate by an explicit
outcome.  Events are tagged with the deployer's position in the batch.
-/

/-- A node as the rotation protocol sees it (identity and the
`is_operational` attribute); for the provisioning loop only its
presence/absence matters. -/
structure SNode where
  name : String
  is_operational : Bool
deriving DecidableEq, Repr

/-- A deployer as the provisioning loop reads it: `seed_verification` and
the result of `get_node()`. -/
structure ProvDeployer where
  node_name : String
  seed_verification : Bool
  node : Option SNode
deriving DecidableEq, Repr

/-- The condition of up.py lines 201 and 209:
`deployer.seed_verification and deployer.get_node() is None`. -/
def needsGate (d : ProvDeployer) : Bool :=
  d.seed_verification && d.node.isNone

/-- `opts = ['Yes', 'No']` (up.py, line 430). -/
def seedGateOpts : List String := ["Yes", "No"]

/-- Result of the seed gate: proceed with the remaining operator input,
`exit(1)`, or block forever on the prompt (operator input exhausted). -/
inductive GateResult
  | proceed (rest : List String)
  | exited (code : Nat)
  | blocked
deriving DecidableEq, Repr

/-- `_prompt_for_seed_verification` (up.py, lines 429-447): re-prompt until
the answer is exactly `'Yes'` or `'No'`; any answer other than `'Yes'`
(that is, `'No'`) logs and calls `exit(1)`. -/
def _prompt_for_seed_verification (answers : List String) : GateResult :=
  match promptValid seedGateOpts answers with
  | none => GateResult.blocked
  | some (user_opt, rest) =>
    if user_opt != "Yes" then GateResult.exited 1 else GateResult.proceed rest

/-- Events of the provisioning loop, tagged by deployer position. -/
inductive ProvEvent
  | gate (i : Nat)
  | ensureCreated (i : Nat)
deriving DecidableEq, Repr

/-- Outcome of the provisioning loop. -/
inductive ProvOutcome
  | completed
  | exited (code : Nat)
  | blocked
deriving DecidableEq, Repr

/-- The provisioning loop body (up.py, lines 200-204 and 208-212): for each
deployer in batch order, run the seed gate when `needsGate`, then
`ensure_node_created()`.  A gate that exits or blocks stops the run. -/
def provisionLoop : Nat → List ProvDeployer → List String → List ProvEvent × ProvOutcome
  | _, [], _ => ([], ProvOutcome.completed)
  | idx, d :: rest, answers =>
    if needsGate d then
      match _prompt_for_seed_verification answers with
      | GateResult.blocked => ([ProvEvent.gate idx], ProvOutcome.blocked)
      | GateResult.exited c => ([ProvEvent.gate idx], ProvOutcome.exited c)
      | GateResult.proceed answers2 =>
        let r := provisionLoop (idx + 1) rest answers2
        (ProvEvent.gate idx :: ProvEvent.ensureCreated idx :: r.1, r.2)
    else
      let r := provisionLoop (idx + 1) rest answers
      (ProvEvent.ensureCreated idx :: r.1, r.2)

/-- The operator input remaining when the loop reaches deployer `i` (the
answers consumed so far being exactly those eaten by earlier gates);
`none` when an earlier gate already exited or blocked the run. -/
def answersAt : Nat → List ProvDeployer → List String → Option (List String)
  | 0, _, answers => some answers
  | _ + 1, [], _ => none
  | i + 1, d :: rest, answers =>
    if needsGate d then
      match _prompt_for_seed_verification answers with
      | GateResult.proceed answers2 => answersAt i rest answers2
      | _ => none
    else answersAt i rest answers

theorem promptValid_skips_invalid (opts : List String) (junk tail : List String)
    (h : ∀ a ∈ junk, opts.contains a = false) :
    promptValid opts (junk ++ tail) = promptValid opts tail := by
  induction junk with
  | nil => simp
  | cons a js ih =>
    have ha : opts.contains a = false := h a (by simp)
    simp only [List.cons_append, promptValid, ha, Bool.false_eq_true, if_false]
    exact ih (fun b hb => h b (by simp [hb]))

theorem provisionLoop_needsGate (idx : Nat) (d : ProvDeployer) (rest : List ProvDeployer)
    (answers : List String) (hng : needsGate d = true) :
    provisionLoop idx (d :: rest) answers =
      match _prompt_for_seed_verification answers with
      | GateResult.blocked => ([ProvEvent.gate idx], ProvOutcome.blocked)
      | GateResult.exited c => ([ProvEvent.gate idx], ProvOutcome.exited c)
      | GateResult.proceed answers2 =>
        (ProvEvent.gate idx :: ProvEvent.ensureCreated idx ::
            (provisionLoop (idx + 1) rest answers2).1,
          (provisionLoop (idx + 1) rest answers2).2) := by
  simp [provisionLoop, hng]

theorem provisionLoop_noGate (idx : Nat) (d : ProvDeployer) (rest : List ProvDeployer)
    (answers : List String) (hng : needsGate d = false) :
    provisionLoop idx (d :: rest) answers =
      (ProvEvent.ensureCreated idx :: (provisionLoop (idx + 1) rest answers).1,
        (provisionLoop (idx + 1) rest answers).2) := by
  simp [provisionLoop, hng]

theorem provision_gate_before_ensure (ds : List ProvDeployer) :
    ∀ idx answers i d, ds.get? i = some d → needsGate d = true →
      ProvEvent.ensureCreated (idx + i) ∈ (provisionLoop idx ds answers).1 →
      List.Sublist [ProvEvent.gate (idx + i), ProvEvent.ensureCreated (idx + i)]
        (provisionLoop idx ds answers).1 := by
  induction ds with
  | nil => intro idx answers i d hget; simp at hget
  | cons d0 rest ih =>
    intro idx answers i d hget hng hmem
    cases i with
    | zero =>
      have hd : d0 = d := by simpa using hget
      subst hd
      rw [Nat.add_zero] at hmem ⊢
      rw [provisionLoop_needsGate idx d0 rest answers hng] at hmem ⊢
      cases hg : _prompt_for_seed_verification answers with
      | blocked => rw [hg] at hmem; simp at hmem
      | exited c => rw [hg] at hmem; simp at hmem
      | proceed a2 =>
        exact List.Sublist.cons₂ _ (List.Sublist.cons₂ _ (List.nil_sublist _))
    | succ i =>
      have hget' : rest.get? i = some d := by simpa using hget
      have harith : idx + (i + 1) = (idx + 1) + i := by omega
      rw [harith] at hmem ⊢
      cases hng0 : needsGate d0 with
      | false =>
        rw [provisionLoop_noGate idx d0 rest answers hng0] at hmem ⊢
        have hmemT : ProvEvent.ensureCreated ((idx + 1) + i) ∈
            (provisionLoop (idx + 1) rest answers).1 := by
          rcases List.mem_cons.mp hmem with h | h
          · exfalso
            have : (idx : Nat) + 1 + i = idx := by
              injection h
            omega
          · exact h
        exact List.Sublist.cons _ (ih (idx + 1) answers i d hget' hng hmemT)
      | true =>
        rw [provisionLoop_needsGate idx d0 rest answers hng0] at hmem ⊢
        cases hg : _prompt_for_seed_verification answers with
        | blocked => rw [hg] at hmem; simp at hmem
        | exited c => rw [hg] at hmem; simp at hmem
        | proceed a2 =>
          rw [hg] at hmem
          have hmemT : ProvEvent.ensureCreated ((idx + 1) + i) ∈
              (provisionLoop (idx + 1) rest a2).1 := by
            rcases List.mem_cons.mp hmem with h | h
            · exact absurd h (by simp)
            · rcases List.mem_cons.mp h with h2 | h2
              · exfalso
                have : (idx : Nat) + 1 + i = idx := by
                  injection h2
                omega
              · exact h2
          exact List.Sublist.cons _
            (List.Sublist.cons _ (ih (idx + 1) a2 i d hget' hng hmemT))

theorem provision_no_aborts (ds : List ProvDeployer) :
    ∀ idx answers i d as' rest2, ds.get? i = some d → needsGate d = true →
      answersAt i ds answers = some as' →
      promptValid seedGateOpts as' = some ("No", rest2) →
      (provisionLoop idx ds answers).2 = ProvOutcome.exited 1 ∧
      ProvEvent.ensureCreated (idx + i) ∉ (provisionLoop idx ds answers).1 ∧
      ProvEvent.gate (idx + i) ∈ (provisionLoop idx ds answers).1 := by
  induction ds with
  | nil => intro idx answers i d as' rest2 hget; simp at hget
  | cons d0 rest ih =>
    intro idx answers i d as' rest2 hget hng hans hno
    cases i with
    | zero =>
      have hd : d0 = d := by simpa using hget
      subst hd
      have has : answers = as' := by
        have h2 : some answers = some as' := hans
        exact Option.some.inj h2
      have hg : _prompt_for_seed_verification answers = GateResult.exited 1 := by
        rw [_prompt_for_seed_verification, has, hno]
        rfl
      rw [Nat.add_zero, provisionLoop_needsGate idx d0 rest answers hng, hg]
      refine ⟨rfl, ?_, by simp⟩
      simp
    | succ i =>
      have hget' : rest.get? i = some d := by simpa using hget
      have harith : idx + (i + 1) = (idx + 1) + i := by omega
      rw [harith]
      cases hng0 : needsGate d0 with
      | false =>
        have hans' : answersAt i rest answers = some as' := by
          simpa [answersAt, hng0] using hans
        have hrec := ih (idx + 1) answers i d as' rest2 hget' hng hans' hno
        rw [provisionLoop_noGate idx d0 rest answers hng0]
        refine ⟨hrec.1, ?_, List.mem_cons_of_mem _ hrec.2.2⟩
        intro hmem
        rcases List.mem_cons.mp hmem with h | h
        · have : (idx : Nat) + 1 + i = idx := by
            injection h
          omega
        · exact hrec.2.1 h
      | true =>
        rw [provisionLoop_needsGate idx d0 rest answers hng0]
        simp only [answersAt, hng0, if_true] at hans
        cases hg : _prompt_for_seed_verification answers with
        | blocked => rw [hg] at hans; simp at hans
        | exited c => rw [hg] at hans; simp at hans
        | proceed a2 =>
          rw [hg] at hans
          have hans2 : answersAt i rest a2 = some as' := hans
          have hrec := ih (idx + 1) a2 i d as' rest2 hget' hng hans2 hno
          refine ⟨hrec.1, ?_, ?_⟩
          · intro hmem
            rcases List.mem_cons.mp hmem with h | h
            · exact absurd h (by simp)
            · rcases List.mem_cons.mp h with h2 | h2
              · have : (idx : Nat) + 1 + i = idx := by
                  injection h2
                omega
              · exact hrec.2.1 h2
          · exact List.mem_cons_of_mem _ (List.mem_cons_of_mem _ hrec.2.2)

/-- C7: in the provisioning loops, for every deployer (position `i` of the
batch) with `seed_verification` set and an absent node: whenever
`ensure_node_created` runs for it, the seed gate ran first (the gate event
precedes the ensure event in the trace); if the first valid operator answer
available when the loop reaches that deployer is `'No'`, the run exits with
status 1, the gate ran, and `ensure_node_created` is never invoked for that
deployer; and the gate's prompt accepts exactly `'Yes'` and `'No'`,
re-prompting past any other input. -/
theorem seed_gate_blocks_on_no (ds : List ProvDeployer) (answers : List String)
    (i : Nat) (d : ProvDeployer) (as' rest2 : List String)
    (hget : ds.get? i = some d)
    (hsv : d.seed_verification = true)
    (hnode : d.node = none)
    (hans : answersAt i ds answers = some as')
    (hno : promptValid seedGateOpts as' = some ("No", rest2)) :
    (provisionLoop 0 ds answers).2 = ProvOutcome.exited 1 ∧
    ProvEvent.ensureCreated i ∉ (provisionLoop 0 ds answers).1 ∧
    ProvEvent.gate i ∈ (provisionLoop 0 ds answers).1 ∧
    (∀ answers2, ProvEvent.ensureCreated i ∈ (provisionLoop 0 ds answers2).1 →
      List.Sublist [ProvEvent.gate i, ProvEvent.ensureCreated i]
        (provisionLoop 0 ds answers2).1) ∧
    (∀ junk tail, (∀ a ∈ junk, seedGateOpts.contains a = false) →
      promptValid seedGateOpts (junk ++ tail) = promptValid seedGateOpts tail) := by
  have hng : needsGate d = true := by simp [needsGate, hsv, hnode]
  have hmain := provision_no_aborts ds 0 answers i d as' rest2 hget hng hans hno
  rw [Nat.zero_add] at hmain
  refine ⟨hmain.1, hmain.2.1, hmain.2.2, ?_, ?_⟩
  · intro answers2 hmem
    have := provision_gate_before_ensure ds 0 answers2 i d hget hng
      (by rwa [Nat.zero_add])
    rwa [Nat.zero_add] at this
  · intro junk tail h
    exact promptValid_skips_invalid seedGateOpts junk tail h

/-- A concrete gated deployer with no node yet. -/
def gatedDeployer : ProvDeployer := ⟨"db-seeded", true, none⟩

/-- Witness for C7: one gated deployer, the operator first types an invalid
answer and then `'No'`; the run exits with status 1 and
`ensure_node_created` never runs. -/
theorem seed_gate_blocks_on_no_witness :
    (provisionLoop 0 [gatedDeployer] ["Maybe", "No"]).2 = ProvOutcome.exited 1 ∧
    ProvEvent.ensureCreated 0 ∉ (provisionLoop 0 [gatedDeployer] ["Maybe", "No"]).1 ∧
    ProvEvent.gate 0 ∈ (provisionLoop 0 [gatedDeployer] ["Maybe", "No"]).1 ∧
    (∀ answers2,
      ProvEvent.ensureCreated 0 ∈ (provisionLoop 0 [gatedDeployer] answers2).1 →
      List.Sublist [ProvEvent.gate 0, ProvEvent.ensureCreated 0]
        (provisionLoop 0 [gatedDeployer] answers2).1) ∧
    (∀ junk tail, (∀ a ∈ junk, seedGateOpts.contains a = false) →
      promptValid seedGateOpts (junk ++ tail) = promptValid seedGateOpts tail) :=
  seed_gate_blocks_on_no [gatedDeployer] ["Maybe", "No"] 0 gatedDeployer
    ["Maybe", "No"] [] rfl rfl rfl rfl (by decide)

/-! ## Seamless rotation protocol, pre-mutation phase (up.py, lines 293-343)

`seamless_modification` is a context manager.  Its pre-yield phase checks
redundancy (prompting or aborting when insufficient), rotates an
operational node out of service, and then yields to the caller's mutation.
The deployment's answer to `has_required_redundancy(node)` and the env
`interactive` flag are passed as values; the outcome records whether
control reached the caller's mutation (`yield`) and with which
`make_operational` flag the restore phase will run.
-/

/-- Observable events of the pre-mutation phase. -/
inductive RotEvent
  | redundancyPrompt
  | rotateOut (name : String)
  | yieldMutation
deriving DecidableEq, Repr

/-- Outcome of the pre-mutation phase. -/
inductive PreOutcome
  | yielded (make_operational : Bool)
  | exited (code : Nat)
  | blocked
deriving DecidableEq, Repr

/-- The rotate-out step and yield (up.py, lines 334-343): an existing,
operational node forces `make_operational := True` and is made temporarily
inoperative before control passes to the caller. -/
def seamlessRotateOut (node : Option SNode) (make_operational : Bool)
    (evs : List RotEvent) : PreOutcome × List RotEvent :=
  match node with
  | some n =>
    if n.is_operational then
      (PreOutcome.yielded true, evs ++ [RotEvent.rotateOut n.name, RotEvent.yieldMutation])
    else (PreOutcome.yielded make_operational, evs ++ [RotEvent.yieldMutation])
  | none => (PreOutcome.yielded make_operational, evs ++ [RotEvent.yieldMutation])

/-- The pre-mutation phase of `seamless_modification` (up.py, lines
309-343): with a node present and `force_seamless` set, insufficient
redundancy leads to a single prompt when `env['interactive']` (any answer
other than `'Y'` calls `exit(1)`), and to an immediate `exit(1)` when the
run is non-interactive. -/
def seamless_modification_pre (node : Option SNode)
    (force_seamless make_operational_if_not_already : Bool)
    (has_required_redundancy : Bool) (interactive : Bool)
    (answers : List String) : PreOutcome × List RotEvent :=
  if node.isSome && force_seamless && !has_required_redundancy then
    if interactive then
      match answers with
      | [] => (PreOutcome.blocked, [RotEvent.redundancyPrompt])
      | continue_anyway :: _ =>
        if continue_anyway != "Y" then (PreOutcome.exited 1, [RotEvent.redundancyPrompt])
        else seamlessRotateOut node make_operational_if_not_already
          [RotEvent.redundancyPrompt]
    else (PreOutcome.exited 1, [])
  else seamlessRotateOut node make_operational_if_not_already []

/-- C6: for every existing node, with `force_seamless` set, when the
deployment reports `has_required_redundancy(node)` false and the run is
non-interactive, `seamless_modification` calls `exit(1)` before yielding to
the caller's mutation: the outcome is exit status 1 and the event list is
empty — no prompt, no rotate-out, and in particular no `yieldMutation`, so
no mutation side effect occurs. -/
theorem seamless_aborts_noninteractive (n : SNode) (make_op : Bool)
    (answers : List String) :
    seamless_modification_pre (some n) true make_op false false answers =
      (PreOutcome.exited 1, []) := rfl

/-! ## Operational convergence loop, single-node mode (up.py, lines 345-399)

The restore phase of `seamless_modification` for a known node: call
`node.make_operational()` (exceptions swallowed, lines 356-362), check
`node.is_operational`, wait one second, re-check, and retry automatically
while `count < auto_retries` (`auto_retries = 10`); then escalate to the
`Ignore/Retry/Fail (I/R/F)` prompt.  `'R'` continues the loop without
resetting `count`; `'I'` returns; `'F'` calls `exit(1)`.

The node is modelled by two oracles giving the value of `is_operational`
at the two read points of attempt `k` (0-based): `checkAfterCall k` right
after the `make_operational` call, and `checkAfterWait k` after the 1s
wait.  Fuel bounds the unrolling of the unbounded `while True`.
-/

/-- Outcome of the single-node restore loop. -/
inductive SingleOutcome
  | operational
  | ignored
  | exited (code : Nat)
  | blocked
  | outOfFuel
deriving DecidableEq, Repr

/-- A run of the single-node restore loop: its outcome, the number of
`make_operational` calls made, and the number of calls already made at
each escalation to the `I/R/F` prompt, in order. -/
structure SingleRun where
  outcome : SingleOutcome
  calls : Nat
  promptsAt : List Nat
deriving DecidableEq, Repr

/-- The single-node restore loop (up.py, lines 348-399), parameters:
fuel, `count`, `make_operational` calls so far, prompt escalations so far
(reversed), remaining operator answers. -/
def make_operational_loop (checkAfterCall checkAfterWait : Nat → Bool) :
    Nat → Nat → Nat → List Nat → List String → SingleRun
  | 0, _, calls, prompts, _ => ⟨SingleOutcome.outOfFuel, calls, prompts.reverse⟩
  | fuel + 1, count, calls, prompts, answers =>
    if checkAfterCall calls then
      ⟨SingleOutcome.operational, calls + 1, prompts.reverse⟩
    else if checkAfterWait calls then
      ⟨SingleOutcome.operational, calls + 1, prompts.reverse⟩
    else if count < 10 then
      make_operational_loop checkAfterCall checkAfterWait fuel (count + 1) (calls + 1)
        prompts answers
    else
      match promptValid ["I", "R", "F"] answers with
      | none => ⟨SingleOutcome.blocked, calls + 1, ((calls + 1) :: prompts).reverse⟩
      | some (user_opt, rest) =>
        if user_opt == "R" then
          make_operational_loop checkAfterCall checkAfterWait fuel count (calls + 1)
            ((calls + 1) :: prompts) rest
        else if user_opt == "I" then
          ⟨SingleOutcome.ignored, calls + 1, ((calls + 1) :: prompts).reverse⟩
        else ⟨SingleOutcome.exited 1, calls + 1, ((calls + 1) :: prompts).reverse⟩

/-- C4: in single-node mode, for a node whose `is_operational` never
becomes true, the loop escalates to the operator for the first time after
exactly 11 `make_operational` attempts (1 initial + 10 automatic retries):
the run with answer `'I'` ends with outcome `ignored` (a plain return, the
node still not operational, nothing raised) after 11 calls and a single
prompt escalation at call 11, and the run with answer `'F'` ends with
`exit(1)`. -/
theorem convergence_prompts_after_11 (c1 c2 : Nat → Bool)
    (h1 : ∀ k, c1 k = false) (h2 : ∀ k, c2 k = false) :
    make_operational_loop c1 c2 20 0 0 [] ["I"] =
      ⟨SingleOutcome.ignored, 11, [11]⟩ ∧
    make_operational_loop c1 c2 20 0 0 [] ["F"] =
      ⟨SingleOutcome.exited 1, 11, [11]⟩ := by
  have e1 : c1 = fun _ => false := funext h1
  have e2 : c2 = fun _ => false := funext h2
  subst e1
  subst e2
  exact ⟨rfl, rfl⟩

/-- Witness for C4 at the concrete never-operational node. -/
theorem convergence_prompts_after_11_witness :
    make_operational_loop (fun _ => false) (fun _ => false) 20 0 0 [] ["I"] =
      ⟨SingleOutcome.ignored, 11, [11]⟩ ∧
    make_operational_loop (fun _ => false) (fun _ => false) 20 0 0 [] ["F"] =
      ⟨SingleOutcome.exited 1, 11, [11]⟩ :=
  convergence_prompts_after_11 (fun _ => false) (fun _ => false)
    (fun _ => rfl) (fun _ => rfl)

/-- C9: in single-node mode, for a node whose `is_operational` never
becomes true, answering `'R'` at the first escalation (after 11 attempts)
does not reset the automatic-attempt counter: the loop makes exactly one
further `make_operational` attempt (with its wait and re-check) and then
escalates again — prompts occur at calls 11 and 12, not after another
bounded phase of 10 automatic retries. -/
theorem convergence_retry_does_not_reset (c1 c2 : Nat → Bool)
    (h1 : ∀ k, c1 k = false) (h2 : ∀ k, c2 k = false) :
    make_operational_loop c1 c2 20 0 0 [] ["R", "I"] =
      ⟨SingleOutcome.ignored, 12, [11, 12]⟩ := by
  have e1 : c1 = fun _ => false := funext h1
  have e2 : c2 = fun _ => false := funext h2
  subst e1
  subst e2
  rfl

/-- Witness for C9 at the concrete never-operational node. -/
theorem convergence_retry_does_not_reset_witness :
    make_operational_loop (fun _ => false) (fun _ => false) 20 0 0 [] ["R", "I"] =
      ⟨SingleOutcome.ignored, 12, [11, 12]⟩ :=
  convergence_retry_does_not_reset (fun _ => false) (fun _ => false)
    (fun _ => rfl) (fun _ => rfl)

/-! ## Operational convergence loop, generation mode (up.py, lines 401-426)

The restore phase of `seamless_modification` when the node is
absent/`None`: repeatedly call
`deployment.repair_active_generation(force_operational=make_operational,
wait_until_operational=False)`, return when
`deployment.active_is_fully_operational()`, otherwise escalate to the
`I/R/F` prompt.  The prompt string is built (lines 404-405) as
`"Active generation not fully operational. " + "Ignore/Retry/Fail (I/R/F)?"`
and every prompt call evaluates `prompt(prompt_str % node)` (line 418)
with `node` the function's `node` argument — `None` in this branch.
`active_is_fully_operational` is an oracle indexed by the number of
repair calls already made.
-/

/-- The generation-mode prompt string (up.py, lines 404-405). -/
def generationPromptStr : String :=
  "Active generation not fully operational. " ++ "Ignore/Retry/Fail (I/R/F)?"

/-- The single-node prompt string (up.py, lines 350-352), for contrast:
it does carry a `%s` specifier. -/
def singleNodePromptStr : String :=
  "Node %s not made operational. Ignore/Retry/Fail (I/R/F)?"

/-- Result of the inner `while not user_opt in opts` prompt loop when each
prompt call first formats `prompt_str % node`. -/
inductive PromptLoopResult
  | answered (a : String) (rest : List String) (shown : Nat)
  | blocked (shown : Nat)
  | raised (msg : String) (shown : Nat)
deriving DecidableEq, Repr

/-- The inner prompt loop (up.py, lines 416-418): each iteration evaluates
`prompt_str % node` — raising propagates out — then shows the prompt and
reads an answer, repeating until the answer is in `opts`.  `shown` counts
prompts actually displayed. -/
def promptLoopFmt (opts : List String) (fmt : String) (arg : PyVal) :
    List String → Nat → PromptLoopResult
  | answers, shown =>
    match pyFormat fmt [arg] with
    | Except.error e => PromptLoopResult.raised e shown
    | Except.ok _ =>
      match answers with
      | [] => PromptLoopResult.blocked shown
      | a :: rest =>
        if opts.contains a then PromptLoopResult.answered a rest (shown + 1)
        else promptLoopFmt opts fmt arg rest (shown + 1)

/-- Outcome of the generation-mode restore loop. -/
inductive GenOutcome
  | converged
  | ignored
  | exited (code : Nat)
  | raised (msg : String)
  | blocked
  | outOfFuel
deriving DecidableEq, Repr

/-- A run of the generation-mode loop: outcome, number of
`repair_active_generation` calls, and number of prompts actually shown. -/
structure GenRun where
  outcome : GenOutcome
  repairCalls : Nat
  promptsShown : Nat
deriving DecidableEq, Repr

/-- The generation-mode restore loop (up.py, lines 407-426).  `fullyOp k`
is the value of `active_is_fully_operational()` after the `k`-th (0-based)
repair call; `node` is the `node` argument of `seamless_modification`
(`None` on this branch), used only inside `prompt_str % node`. -/
def repair_generation_loop (fullyOp : Nat → Bool) (node : PyVal) :
    Nat → Nat → Nat → List String → GenRun
  | 0, calls, shown, _ => ⟨GenOutcome.outOfFuel, calls, shown⟩
  | fuel + 1, calls, shown, answers =>
    if fullyOp calls then ⟨GenOutcome.converged, calls + 1, shown⟩
    else
      match promptLoopFmt ["I", "R", "F"] generationPromptStr node answers shown with
      | PromptLoopResult.raised e shown2 => ⟨GenOutcome.raised e, calls + 1, shown2⟩
      | PromptLoopResult.blocked shown2 => ⟨GenOutcome.blocked, calls + 1, shown2⟩
      | PromptLoopResult.answered user_opt rest shown2 =>
        if user_opt == "R" then
          repair_generation_loop fullyOp node fuel (calls + 1) shown2 rest
        else if user_opt == "I" then ⟨GenOutcome.ignored, calls + 1, shown2⟩
        else ⟨GenOutcome.exited 1, calls + 1, shown2⟩

/-- The single-node prompt string formats fine against a node, while the
generation-mode prompt string has no conversion specifier, so applying
`% node` to it raises a `TypeError`. -/
theorem generation_prompt_fmt_raises :
    pyFormat singleNodePromptStr [PyVal.pyStr "web0"] =
      Except.ok "Node web0 not made operational. Ignore/Retry/Fail (I/R/F)?" ∧
    pyFormat generationPromptStr [PyVal.pyNone] =
      Except.error "not all arguments converted during string formatting" := by
  constructor <;> rfl

/-- C5: the claim says that in generation mode, after each
`repair_active_generation` call with `active_is_fully_operational()` false,
the operator is presented the three-way `I/R/F` prompt with no exception
raised on the way.  In the code, every prompt call evaluates
`prompt_str % node` (line 418) where the generation-mode prompt string
contains no conversion specifier and `node` is `None`: the very first
escalation raises `TypeError: not all arguments converted during string
formatting` — after one repair call, zero prompts are ever shown. -/
theorem generation_mode_raises_before_prompt :
    repair_generation_loop (fun _ => false) PyVal.pyNone 5 0 0 ["I"] =
      ⟨GenOutcome.raised "not all arguments converted during string formatting",
        1, 0⟩ := rfl

/-! ## The repair action (repair.py)

`repair` is modelled from the point after its `require`/`assert`
preconditions and `verify_deployment_state()` have succeeded (both are
behavior of the external `Deployment`): it computes
`force = force == 'y'`, calls
`deployment.repair_active_generation(force_operational=force)` — an oracle
from the flag to the list of activated nodes — logs one message, and
returns, completing the action with exit status 0.  Log calls are kept as
(format string, lazy arguments) pairs, as `logging` receives them.
-/

/-- A run of the `repair` action. -/
structure RepairRun where
  force_operational : Bool
  logs : List (String × List PyVal)
  exitCode : Nat
deriving DecidableEq, Repr

/-- The success log format string (repair.py, line 27). -/
def repairLogFmt : String := "Succesfully made %s node(s) operational"

/-- The `repair` action (repair.py, lines 4-30) after verification
succeeds. -/
def repair (force : String) (repair_active_generation : Bool → List String) :
    RepairRun :=
  let force_b := force == "y"
  let activated_nodes := repair_active_generation force_b
  if activated_nodes.length != 0 then
    { force_operational := force_b
      logs := [(repairLogFmt, [PyVal.pyInt activated_nodes.length])]
      exitCode := 0 }
  else
    { force_operational := force_b
      logs := [("No nodes modified", [])]
      exitCode := 0 }

/-- C10: after `verify_deployment_state` succeeds, `repair` calls
`repair_active_generation` with `force_operational = (force == 'y')`; it
always completes with exit status 0; when the returned sequence is empty it
logs `"No nodes modified"`, and when the sequence has `n` nodes it logs
`"Succesfully made %s node(s) operational"` with `n` — e.g. rendered for
`n = 2`, `"Succesfully made 2 node(s) operational"`. -/
theorem repair_reports_result (force : String)
    (repair_active_generation : Bool → List String) :
    (repair force repair_active_generation).force_operational = (force == "y") ∧
    (repair force repair_active_generation).exitCode = 0 ∧
    (repair_active_generation (force == "y") = [] →
      (repair force repair_active_generation).logs = [("No nodes modified", [])]) ∧
    (∀ ns, repair_active_generation (force == "y") = ns → ns ≠ [] →
      (repair force repair_active_generation).logs =
        [(repairLogFmt, [PyVal.pyInt ns.length])]) ∧
    pyFormat repairLogFmt [PyVal.pyInt 2] =
      Except.ok "Succesfully made 2 node(s) operational" := by
  refine ⟨?_, ?_, ?_, ?_, rfl⟩
  · cases hr : repair_active_generation (force == "y") with
    | nil => simp [repair, hr]
    | cons a l => simp [repair, hr]
  · cases hr : repair_active_generation (force == "y") with
    | nil => simp [repair, hr]
    | cons a l => simp [repair, hr]
  · intro hr
    simp [repair, hr]
  · intro ns hr hne
    cases ns with
    | nil => exact absurd rfl hne
    | cons a l => simp [repair, hr]

/-- Witness for C10 with a two-node repair result. -/
theorem repair_reports_result_witness :
    (repair "y" (fun _ => ["node-a", "node-b"])).force_operational = ("y" == "y") ∧
    (repair "y" (fun _ => ["node-a", "node-b"])).exitCode = 0 ∧
    ((fun (_ : Bool) => ["node-a", "node-b"]) ("y" == "y") = [] →
      (repair "y" (fun _ => ["node-a", "node-b"])).logs = [("No nodes modified", [])]) ∧
    (∀ ns, (fun (_ : Bool) => ["node-a", "node-b"]) ("y" == "y") = ns → ns ≠ [] →
      (repair "y" (fun _ => ["node-a", "node-b"])).logs =
        [(repairLogFmt, [PyVal.pyInt ns.length])]) ∧
    pyFormat repairLogFmt [PyVal.pyInt 2] =
      Except.ok "Succesfully made 2 node(s) operational" :=
  repair_reports_result "y" (fun _ => ["node-a", "node-b"])

end Neckbeard
